import Mathlib

/-!
Verification development for the mass-flow baseline estimator
(`massflow_baseline.py`).  The pandas dataframes are embedded shallowly:
a tabular column cell is a rational number, a missing (NaN) cell is
`none : Option ℚ`, and the pandas operations used by the source
(`Series.replace`, `np.where`, index-aligned dataframe addition, outer
merge followed by a sort on the Authority column, `Series.median`) are
modelled by explicit Lean functions.  All tonnages and composition
ratios are exact rationals; decimal literals such as `0.6564` denote
the exact rational 6564/10000, matching the decimal constants of the
source.
-/

/-- Semantics of `Series.replace(np.NaN, fallback)` at one cell: a present
value is kept, a missing (NaN) cell is replaced, directly, by the fallback
cell (which may itself be missing). -/
def replaceNaN {α : Type} : Option α → Option α → Option α
  | some x, _ => some x
  | none, b => b

/-- Multiplication of a possibly-missing cell by a ratio; NaN propagates,
as in pandas arithmetic. -/
def omul (a : Option ℚ) (r : ℚ) : Option ℚ :=
  a.map (fun x => x * r)

/-- Semantics of `Series.replace(0, fallback)` at one cell: a zero value is
replaced by the fallback cell, any other value is kept. -/
def replaceZero (a b : ℚ) : ℚ :=
  if a = 0 then b else a

/-- One row of the table produced by `get_hhkerb_rec_la` /
`get_hhkerb_recreu_la`: one authority with its raw material columns for
household kerbside recycling (question Q010).  The pivot leaves NaN for a
material an authority never reported, hence `Option ℚ`; the row sum
`sum_dry_rec` skips NaN, hence it is always a number. -/
structure HhkerbRecRow where
  authority : String
  mixedGlass : Option ℚ            -- column 'Mixed glass'
  mixedPlasticBottles : Option ℚ   -- column 'Mixed Plastic Bottles'
  plastics : Option ℚ              -- column 'Plastics'
  steelCans : Option ℚ             -- column 'Steel cans'
  aluminiumCans : Option ℚ         -- column 'Aluminium cans'
  mixedCans : Option ℚ             -- column 'Mixed cans'
  compositeCartons : Option ℚ      -- column 'Composite food and beverage cartons'
  coMingled : Option ℚ             -- column 'Co mingled materials'
  sumDryRec : ℚ                    -- column 'sum_dry_rec'

/-- The five output columns of a DRS composition estimator whose cascade
can leave a cell missing (household kerbside recycling). -/
structure DRSRowO where
  drsGlassBottles : Option ℚ
  drsPlasticBottles : Option ℚ
  drsFerrousCans : Option ℚ
  drsAluminiumCans : Option ℚ
  drsBeverageCartons : Option ℚ

/-- The five output columns of a DRS composition estimator that always
produces numbers (HWRCs recycling, litter residual). -/
structure DRSRowQ where
  drsGlassBottles : ℚ
  drsPlasticBottles : ℚ
  drsFerrousCans : ℚ
  drsAluminiumCans : ℚ
  drsBeverageCartons : ℚ

/-- The per-authority computation of `get_hhkerb_rec_drs` (source lines
151-254).  The `reuse` option of the source only switches which input
table supplies the row, so it is not a parameter here; `method`,
`dry_rec` and `comingled_reject` are the source's string options.  A
string other than the two legal values of `comingled_reject` or
`dry_rec` is a Python `NameError` / `KeyError`; those branches are
modelled by the final `else` and are never used. -/
def get_hhkerb_rec_drs_row (method dryRec comingledReject : String)
    (r : HhkerbRecRow) : DRSRowO :=
  let reject_rate : ℚ :=
    if comingledReject = "Yes" then 0.8915
    else if comingledReject = "No" then 1.0 else 0
  -- WRAP rates, two of them overridden under the Eunomia method
  let mixed_glass : ℚ := if method = "Eunomia" then 0.80 else 0.6564
  let co_glass : ℚ := 0.1599
  let bottles : ℚ := 0.9626
  let plastics_rate : ℚ := if method = "Eunomia" then 0.22 else 0.6847
  let swansea : ℚ := 0.5738
  let co_plastics : ℚ := 0.0669
  let steel : ℚ := 0.1953
  let alum : ℚ := 0.9483
  let mixed_fer : ℚ := 0.1453
  let mixed_alum : ℚ := 0.2429
  let co_fer : ℚ := 0.0101
  let co_alum : ℚ := 0.0169
  let co_bev : ℚ := 0.0031
  let dryVal : Option ℚ :=
    if dryRec = "Sum" then some r.sumDryRec
    else if dryRec = "Comingled" then r.coMingled else none
  -- DRS Glass Bottles: 'Mixed glass', else dry recycling fallback
  let glass1 := omul r.mixedGlass mixed_glass
  let glass2 := replaceNaN glass1 (omul (omul dryVal reject_rate) co_glass)
  -- DRS Plastic Bottles: 'Mixed Plastic Bottles', else 'Plastics',
  -- Swansea overridden unconditionally, else dry recycling fallback
  let pb1 := omul r.mixedPlasticBottles bottles
  let pb2 := replaceNaN pb1 (omul r.plastics plastics_rate)
  let pb3 := if r.authority = "City  and County of Swansea " then
      omul r.plastics swansea else pb2
  let pb4 := replaceNaN pb3 (omul (omul dryVal reject_rate) co_plastics)
  -- DRS Ferrous Cans: 'Steel cans', overridden by 'Mixed cans' when that
  -- is non-null and the authority is not one of the two excluded ones,
  -- else dry recycling fallback
  let fer1 := omul r.steelCans steel
  let fer2 := if r.mixedCans.isSome ∧ r.authority ≠ "Neath Port Talbot CBC" ∧
      r.authority ≠ "Powys County Council" then
      omul r.mixedCans mixed_fer else fer1
  let fer3 := replaceNaN fer2 (omul (omul dryVal reject_rate) co_fer)
  -- DRS Aluminium Cans, with the same 'Mixed cans' override
  let al1 := omul r.aluminiumCans alum
  let al2 := if r.mixedCans.isSome ∧ r.authority ≠ "Neath Port Talbot CBC" ∧
      r.authority ≠ "Powys County Council" then
      omul r.mixedCans mixed_alum else al1
  let al3 := replaceNaN al2 (omul (omul dryVal reject_rate) co_alum)
  -- DRS Beverage Cartons
  let bev1 := r.compositeCartons
  let bev2 := replaceNaN bev1 (omul (omul dryVal reject_rate) co_bev)
  ⟨glass2, pb4, fer3, al3, bev2⟩

/-- One row of the combined table consumed by `get_hwrcs_rec_drs`: by the
time the estimator runs, `get_hwrcs_rec_la` has replaced every NaN by 0,
so all cells are plain numbers. -/
structure HwrcsRecRow where
  authority : String
  brownGlass : ℚ               -- column 'Brown glass'
  clearGlass : ℚ               -- column 'Clear glass'
  greenGlass : ℚ               -- column 'Green glass'
  mixedGlass : ℚ               -- column 'Mixed glass'
  mixedPlasticBottles : ℚ      -- column 'Mixed Plastic Bottles'
  plastics : ℚ                 -- column 'Plastics'
  aluminiumCans : ℚ            -- column 'Aluminium cans'
  steelCans : ℚ                -- column 'Steel cans'
  mixedCans : ℚ                -- column 'Mixed cans'
  compositeCartons : ℚ         -- column 'Composite food and beverage cartons'
  coMingled : ℚ                -- column 'Co mingled materials'
  sumDryRec : ℚ                -- column 'sum_dry_rec'

/-- The per-authority computation of `get_hwrcs_rec_drs` (source lines
406-480).  Every fallback level of this estimator is triggered by the
value 0 (`Series.replace(0, ...)`), not by a missing value. -/
def get_hwrcs_rec_drs_row (dryRec : String) (r : HwrcsRecRow) : DRSRowQ :=
  let mixed_glass : ℚ := 0.75
  let clear_glass : ℚ := 0.35
  let co_glass : ℚ := 0.0245
  let plastics_rate : ℚ := 0.50
  let co_plastics : ℚ := 0.16528
  let mixed_fer : ℚ := 0.80
  let mixed_alum : ℚ := 0.20
  let co_fer : ℚ := 0.1123
  let co_alum : ℚ := 0.0379
  let co_bev : ℚ := 0.00669
  let dryVal : ℚ :=
    if dryRec = "Sum" then r.sumDryRec
    else if dryRec = "Comingled" then r.coMingled else 0
  let g1 := r.mixedGlass * mixed_glass + r.clearGlass * clear_glass +
    r.brownGlass + r.greenGlass
  let g2 := replaceZero g1 (dryVal * co_glass)
  let p1 := r.mixedPlasticBottles
  let p2 := replaceZero p1 (r.plastics * plastics_rate)
  let p3 := replaceZero p2 (dryVal * co_plastics)
  let f1 := r.steelCans
  let f2 := replaceZero f1 (r.mixedCans * mixed_fer)
  let f3 := replaceZero f2 (dryVal * co_fer)
  let a1 := r.aluminiumCans
  let a2 := replaceZero a1 (r.mixedCans * mixed_alum)
  let a3 := replaceZero a2 (dryVal * co_alum)
  let b1 := r.compositeCartons
  let b2 := replaceZero b1 (dryVal * co_bev)
  ⟨g2, p3, f3, a3, b2⟩

/-- The litter derivation of `get_lit_res_la` (source lines 684-703):
half of street cleaning is assumed to be mechanical sweeping, and
flytipping clearance is subtracted. -/
def get_lit_res_la_litter (streetCleaning flytipping : ℚ) : ℚ :=
  streetCleaning / 2 - flytipping

/-- The per-authority computation of `get_lit_res_drs` (source lines
705-721): the litter tonnage multiplied by the five fixed rates. -/
def get_lit_res_drs_row (litter : ℚ) : DRSRowQ :=
  ⟨litter * 0.0688, litter * 0.0712, litter * 0.0183,
   litter * 0.0369, litter * 0.0045⟩

/-- The full litter DRSMaterialTable: one row per authority, each derived
from that authority's street-cleaning and flytipping tonnages. -/
def get_lit_res_drs_table (rows : List (String × ℚ × ℚ)) :
    List (String × DRSRowQ) :=
  rows.map (fun r => (r.1, get_lit_res_drs_row (get_lit_res_la_litter r.2.1 r.2.2)))

/-- Aggregation used by `get_massflow_baseline` for each stream column:
sum across authorities and divide by 1000 (tonnes to thousand tonnes). -/
def baselineStreamSum (vals : List ℚ) : ℚ :=
  vals.sum / 1000

/-- The 'Remains in Environment (leftover)' cell of the baseline for one
DRS material (source lines 855-862): reference weight minus the seven
per-stream totals, with no clamping. -/
def remains_in_environment (w hhkerbRec hhkerbRes hwrcsRec hwrcsRes comRec
    comRes litRes : ℚ) : ℚ :=
  w - hhkerbRec - hhkerbRes - hwrcsRec - hwrcsRes - comRec - comRes - litRes

/-- The national reference weight list of `get_total_weight_drs_list`
(source lines 728-772).  The body reassigns `ave_pet_size` to 0.5 before
its only use, exactly as the source does, so the parameter is dead. -/
def get_total_weight_drs_list (ave_pet_size : ℚ) : List ℚ :=
  let scot_wgt_list : List ℚ := [164.8, 38.6, 5.2, 8.9, 5, 222.5, 0]
  let scot_pop : ℚ := 5347600.0
  let wales_pop : ℚ := 3092000.0
  let uk_pop : ℚ := 64596800.0
  let wales_scot_ratio := wales_pop / scot_pop
  let wales_uk_ratio := wales_pop / uk_pop
  let ave_kg_list : List ℚ := [0.378, 0.033, 0.056, 0.035, 0.017, 0.021]
  let wales_gla_wgt := scot_wgt_list.getD 0 0 * wales_scot_ratio
  let uk_pet_vol : ℚ := 14800000000 * 0.69
  let wales_pet_vol := uk_pet_vol * wales_uk_ratio
  let ave_pet_size : ℚ := 0.5  -- unconditional reassignment, as in the source
  let wales_pet_num := wales_pet_vol / ave_pet_size
  let wales_pet_wgt := wales_pet_num * ave_kg_list.getD 1 0 / 1000000
  let uk_hdpe_num : ℚ := 4000000000
  let wales_hdpe_num := uk_hdpe_num * wales_uk_ratio
  let wales_hdpe_wgt := wales_hdpe_num * ave_kg_list.getD 2 0 / 1000000
  let wales_pla_wgt := wales_pet_wgt + wales_hdpe_wgt
  let uk_cans_num : ℚ := 9800000000
  let wales_cans_num := uk_cans_num * wales_uk_ratio
  let wales_fer_num := wales_cans_num * 0.22
  let wales_alum_num := wales_cans_num * 0.78
  let wales_fer_wgt := wales_fer_num * ave_kg_list.getD 3 0 / 1000000
  let wales_alum_wgt := wales_alum_num * ave_kg_list.getD 4 0 / 1000000
  let uk_car_wgt : ℚ := 60
  let wales_car_wgt := uk_car_wgt * wales_uk_ratio
  let wales_total_wgt := wales_gla_wgt + wales_pla_wgt + wales_fer_wgt +
    wales_alum_wgt + wales_car_wgt
  [wales_gla_wgt, wales_pla_wgt, wales_fer_wgt, wales_alum_wgt,
   wales_car_wgt, wales_total_wgt, 0]

/-- Modelled from the spec and the source for comparison only: the body of
`get_total_weight_drs_list` with the reassigning line `ave_pet_size = 0.5`
removed, so that the `ave_pet_size` argument is actually used.  This
variant documents where the hard-coded percent divisor 1.402216 of
`get_massflow_baseline` comes from: its total at the declared default
0.75 is 140.2216... thousand tonnes. -/
def total_weight_param_respected (ave_pet_size : ℚ) : List ℚ :=
  let scot_wgt_list : List ℚ := [164.8, 38.6, 5.2, 8.9, 5, 222.5, 0]
  let scot_pop : ℚ := 5347600.0
  let wales_pop : ℚ := 3092000.0
  let uk_pop : ℚ := 64596800.0
  let wales_scot_ratio := wales_pop / scot_pop
  let wales_uk_ratio := wales_pop / uk_pop
  let ave_kg_list : List ℚ := [0.378, 0.033, 0.056, 0.035, 0.017, 0.021]
  let wales_gla_wgt := scot_wgt_list.getD 0 0 * wales_scot_ratio
  let uk_pet_vol : ℚ := 14800000000 * 0.69
  let wales_pet_vol := uk_pet_vol * wales_uk_ratio
  let wales_pet_num := wales_pet_vol / ave_pet_size
  let wales_pet_wgt := wales_pet_num * ave_kg_list.getD 1 0 / 1000000
  let uk_hdpe_num : ℚ := 4000000000
  let wales_hdpe_num := uk_hdpe_num * wales_uk_ratio
  let wales_hdpe_wgt := wales_hdpe_num * ave_kg_list.getD 2 0 / 1000000
  let wales_pla_wgt := wales_pet_wgt + wales_hdpe_wgt
  let uk_cans_num : ℚ := 9800000000
  let wales_cans_num := uk_cans_num * wales_uk_ratio
  let wales_fer_num := wales_cans_num * 0.22
  let wales_alum_num := wales_cans_num * 0.78
  let wales_fer_wgt := wales_fer_num * ave_kg_list.getD 3 0 / 1000000
  let wales_alum_wgt := wales_alum_num * ave_kg_list.getD 4 0 / 1000000
  let uk_car_wgt : ℚ := 60
  let wales_car_wgt := uk_car_wgt * wales_uk_ratio
  let wales_total_wgt := wales_gla_wgt + wales_pla_wgt + wales_fer_wgt +
    wales_alum_wgt + wales_car_wgt
  [wales_gla_wgt, wales_pla_wgt, wales_fer_wgt, wales_alum_wgt,
   wales_car_wgt, wales_total_wgt, 0]

/-- The 'Percent Contribution' cell of `get_massflow_baseline` for one
stream (source lines 863-869): the stream's Total divided by the
hard-coded constant 1.402216. -/
def percent_contribution (streamTotal : ℚ) : ℚ :=
  streamTotal / 1.402216


/-- Semantics of `Series.median()` on the non-missing entries of a column:
sort, then take the middle element (odd length) or the mean of the two
middle elements (even length).  The pandas median of an empty series is
NaN; the model is only applied to columns with at least one datum. -/
def pdMedian (l : List ℚ) : ℚ :=
  let s := List.insertionSort (fun a b : ℚ => a ≤ b) l
  if l.length % 2 = 1 then s.getD (l.length / 2) 0
  else (s.getD (l.length / 2 - 1) 0 + s.getD (l.length / 2) 0) / 2

/-- One row of the population-merged table of `get_com_rec_drs_int`: the
population of the authority together with its commercial recycling
material columns (question Q011), NaN where the authority reported no
tonnage for the material. -/
structure ComRecRow where
  authority : String
  population : ℚ                   -- column 'Population'
  mixedGlass : Option ℚ            -- column 'Mixed glass'
  mixedPlasticBottles : Option ℚ   -- column 'Mixed Plastic Bottles'
  plastics : Option ℚ              -- column 'Plastics'
  mixedCans : Option ℚ             -- column 'Mixed cans'

/-- The median of (material tonnage / population) across the authorities
that have data for the column, as in the line
`(merge[drs]/merge['Population']).median()`: dividing NaN by the
population leaves NaN, and the median skips NaN. -/
def medianRate (rows : List ComRecRow) (col : ComRecRow → Option ℚ) : ℚ :=
  pdMedian (rows.filterMap (fun r => (col r).map (fun v => v / r.population)))

/-- Column 'Estimated Mixed glass' of `get_com_rec_drs_int`: the
authority's own population multiplied by the median per-capita rate. -/
def estimatedMixedGlass (rows : List ComRecRow) (r : ComRecRow) : ℚ :=
  r.population * medianRate rows (fun x => x.mixedGlass)

/-- Column 'Combined Mixed glass': the raw value where present, the
estimate where the raw value is missing. -/
def combinedMixedGlass (rows : List ComRecRow) (r : ComRecRow) : ℚ :=
  (r.mixedGlass).getD (estimatedMixedGlass rows r)

/-- The four material columns of `get_com_rec_drs_int` (source lines
568-611) that are derived from the commercial recycling table itself.
DRS Beverage Cartons is instead scaled from the commercial residual
stream and is outside the claims, so it is not modelled here. -/
structure ComDRSRow where
  drsGlassBottles : ℚ
  drsPlasticBottles : ℚ
  drsFerrousCans : ℚ
  drsAluminiumCans : ℚ

/-- The per-authority computation of `get_com_rec_drs_int`. -/
def get_com_rec_drs_int_row (rows : List ComRecRow) (r : ComRecRow) :
    ComDRSRow :=
  let glass := combinedMixedGlass rows r * 0.75
  let estPlastics := r.population * medianRate rows (fun x => x.plastics)
  let pb1 := r.mixedPlasticBottles
  let pb2 := replaceNaN pb1 (omul r.plastics 0.5)
  let pb3 := pb2.getD (estPlastics * 0.5)
  let estMixedCans := r.population * medianRate rows (fun x => x.mixedCans)
  let combinedMixedCans := (r.mixedCans).getD estMixedCans
  let fer := combinedMixedCans * 0.8
  let alum := combinedMixedCans * 0.2
  ⟨glass, pb3, fer, alum⟩

variable {α : Type} [LinearOrder α]

/-!
The combining join of `get_hwrcs_rec_la` (source lines 330-370).  The
CA-sites table (question Q016) and the bring-sites table (question Q017)
are each one pivoted row per authority; the bring table is outer-merged
with the CA table's Authority column and sorted by Authority, both
tables are NaN-filled with 0, and then the two dataframes are added.
Pandas adds dataframes by row INDEX, not by the Authority column, and
the Authority column of the sum is overwritten from the bring table.
Each numeric column is treated identically by all of these operations,
so the model carries one numeric column per authority.
-/

/-- Index-aligned addition of two zero-filled tables, as performed by
`hwrcs_rec_ca_la + hwrcs_rec_bring_la` followed by the re-assignment
`merge['Authority'] = hwrcs_rec_bring_la['Authority']`: row i of the
result takes the authority NAME of row i of the bring table and the sum
of the VALUES of row i of both tables; a row index present only in the
longer (bring) table yields NaN. -/
def positionalAdd : List (α × ℚ) → List (α × ℚ) →
    List (α × Option ℚ)
  | _, [] => []
  | [], b :: bs => (b.1, none) :: positionalAdd [] bs
  | c :: cs, b :: bs => (b.1, some (c.2 + b.2)) :: positionalAdd cs bs

/-- Lookup of the row value stored under an authority name. -/
def lookupName (a : α) : List (α × Option ℚ) → Option (Option ℚ)
  | [] => none
  | r :: rs => if r.1 = a then some r.2 else lookupName a rs

/-- Ordering of table rows by their Authority column. -/
def rowLE (a b : α × Option ℚ) : Prop :=
  a.1 ≤ b.1

instance : DecidableRel (@rowLE α _) :=
  fun a b => inferInstanceAs (Decidable (a.1 ≤ b.1))

instance : IsTotal (α × Option ℚ) rowLE :=
  ⟨fun a b => le_total a.1 b.1⟩

instance : IsTrans (α × Option ℚ) rowLE :=
  ⟨fun _ _ _ h1 h2 => le_trans h1 h2⟩

/-- The combination step of `get_hwrcs_rec_la`: outer-merge the bring
table with the CA table's authority list, sort by Authority, replace NaN
by 0 in both tables, add them index-aligned, and take the Authority
column from the bring table. -/
def get_hwrcs_rec_la_model (ca bring : List (α × Option ℚ)) :
    List (α × Option ℚ) :=
  let caNames := ca.map Prod.fst
  let bringNames := bring.map Prod.fst
  let bringExt := List.insertionSort rowLE
    (bring ++ (caNames.filter (fun a => decide (a ∉ bringNames))).map
      (fun a => (a, (none : Option ℚ))))
  let caF := ca.map (fun r => (r.1, r.2.getD 0))
  let bringF := bringExt.map (fun r => (r.1, r.2.getD 0))
  positionalAdd caF bringF


theorem lookupName_eq_none {a : α} {l : List (α × Option ℚ)}
    (h : a ∉ l.map Prod.fst) : lookupName a l = none := by
  induction l with
  | nil => rfl
  | cons r rs ih =>
    simp only [List.map_cons, List.mem_cons] at h
    push_neg at h
    rw [lookupName, if_neg (fun e => h.1 e.symm)]
    exact ih h.2

theorem lookupName_mem {a : α} {l : List (α × Option ℚ)}
    (h : a ∈ l.map Prod.fst) : ∃ v, lookupName a l = some v := by
  induction l with
  | nil => simp at h
  | cons r rs ih =>
    by_cases e : r.1 = a
    · exact ⟨r.2, by rw [lookupName, if_pos e]⟩
    · simp only [List.map_cons, List.mem_cons] at h
      rcases h with h | h
      · exact absurd h.symm e
      · rcases ih h with ⟨v, hv⟩
        exact ⟨v, by rw [lookupName, if_neg e, hv]⟩

theorem lookupName_append (a : α) (l₁ l₂ : List (α × Option ℚ)) :
    lookupName a (l₁ ++ l₂) = replaceNaN (lookupName a l₁) (lookupName a l₂) := by
  induction l₁ with
  | nil => rfl
  | cons r rs ih =>
    by_cases e : r.1 = a
    · rw [List.cons_append, lookupName, if_pos e, lookupName, if_pos e, replaceNaN]
    · rw [List.cons_append, lookupName, if_neg e, lookupName, if_neg e, ih]

theorem lookupName_mapConst (a : α) (ns : List α) (c : Option ℚ) :
    lookupName a (ns.map (fun n => (n, c))) =
      if a ∈ ns then some c else none := by
  induction ns with
  | nil => rfl
  | cons n ns ih =>
    by_cases e : n = a
    · subst e
      simp [lookupName]
    · rw [List.map_cons, lookupName, if_neg e, ih]
      by_cases h : a ∈ ns
      · rw [if_pos h, if_pos (List.mem_cons_of_mem n h)]
      · rw [if_neg h, if_neg (by
          simp only [List.mem_cons]
          push_neg
          exact ⟨fun hh => e hh.symm, h⟩)]

theorem lookupName_map_keyed (a : α) (l : List (α × Option ℚ))
    (g : α → Option ℚ) :
    lookupName a (l.map (fun r => (r.1, g r.1))) =
      if a ∈ l.map Prod.fst then some (g a) else none := by
  induction l with
  | nil => rfl
  | cons r rs ih =>
    by_cases e : r.1 = a
    · subst e
      simp [lookupName]
    · rw [List.map_cons, lookupName, if_neg e, ih, List.map_cons]
      by_cases h : a ∈ rs.map Prod.fst
      · rw [if_pos h, if_pos (List.mem_cons_of_mem _ h)]
      · rw [if_neg h, if_neg (by
          simp only [List.mem_cons]
          push_neg
          exact ⟨fun hh => e hh.symm, h⟩)]

theorem lookupName_perm {l₁ l₂ : List (α × Option ℚ)} (h : l₁.Perm l₂) :
    (l₁.map Prod.fst).Nodup → ∀ a, lookupName a l₁ = lookupName a l₂ := by
  induction h with
  | nil => exact fun _ _ => rfl
  | cons x h ih =>
    intro hnd a
    simp only [List.map_cons, List.nodup_cons] at hnd
    by_cases e : x.1 = a
    · rw [lookupName, if_pos e, lookupName, if_pos e]
    · rw [lookupName, if_neg e, lookupName, if_neg e]
      exact ih hnd.2 a
  | swap x y l =>
    intro hnd a
    simp only [List.map_cons, List.nodup_cons, List.mem_cons] at hnd
    by_cases e1 : y.1 = a
    · by_cases e2 : x.1 = a
      · exact absurd (Or.inl (e1.trans e2.symm)) hnd.1
      · rw [lookupName, if_pos e1, lookupName, if_neg e2, lookupName, if_pos e1]
    · by_cases e2 : x.1 = a
      · rw [lookupName, if_neg e1, lookupName, if_pos e2, lookupName, if_pos e2]
      · rw [lookupName, if_neg e1, lookupName, if_neg e2, lookupName, if_neg e2,
          lookupName, if_neg e1]
  | trans h1 h2 ih1 ih2 =>
    intro hnd a
    have hnd2 := ((h1.map Prod.fst).nodup_iff).mp hnd
    exact (ih1 hnd a).trans (ih2 hnd2 a)

theorem eq_of_keys_lookup :
    ∀ (l₁ l₂ : List (α × Option ℚ)),
      l₁.map Prod.fst = l₂.map Prod.fst → (l₁.map Prod.fst).Nodup →
      (∀ a, lookupName a l₁ = lookupName a l₂) → l₁ = l₂ := by
  intro l₁
  induction l₁ with
  | nil =>
    intro l₂ hk _ _
    simp only [List.map_nil] at hk
    exact (List.map_eq_nil_iff.mp hk.symm).symm
  | cons r rs ih =>
    intro l₂ hk hnd hl
    cases l₂ with
    | nil => simp at hk
    | cons s ss =>
      simp only [List.map_cons, List.cons.injEq] at hk
      obtain ⟨hk1, hk2⟩ := hk
      simp only [List.map_cons, List.nodup_cons] at hnd
      have hv : r.2 = s.2 := by
        have h0 := hl r.1
        rw [lookupName, if_pos rfl, lookupName, if_pos hk1.symm] at h0
        exact Option.some.inj h0
      have htail : rs = ss := by
        apply ih ss hk2 hnd.2
        intro a
        by_cases e : a = r.1
        · subst e
          rw [lookupName_eq_none hnd.1, lookupName_eq_none (hk2 ▸ hnd.1)]
        · have h0 := hl a
          rw [lookupName, if_neg (fun hh => e hh.symm), lookupName,
            if_neg (fun hh : s.1 = a => e (hh.symm.trans hk1.symm))] at h0
          exact h0
      rw [htail, Prod.ext hk1 hv]

theorem positionalAdd_map_keyed (bring : List (α × Option ℚ)) :
    ∀ ca : List (α × Option ℚ),
      positionalAdd (ca.map (fun r => (r.1, r.2.getD 0)))
        ((ca.map (fun r => (r.1, (lookupName r.1 bring).getD none))).map
          (fun r => (r.1, r.2.getD 0))) =
      ca.map (fun r => (r.1, some (r.2.getD 0 +
        ((lookupName r.1 bring).getD none).getD 0)))
  | [] => rfl
  | r :: rs => by
    simp only [List.map_cons]
    show (r.1, some (r.2.getD 0 + ((lookupName r.1 bring).getD none).getD 0))
        :: positionalAdd (rs.map (fun r => (r.1, r.2.getD 0)))
          ((rs.map (fun r => (r.1, (lookupName r.1 bring).getD none))).map
            (fun r => (r.1, r.2.getD 0))) = _
    rw [positionalAdd_map_keyed bring rs]

/-- Claim C6, amended.  When every bring-sites authority also appears in
the CA-sites table (which holds for the actual data, where only the
CA-sites table has the extra authority), the combination step of
`get_hwrcs_rec_la` produces exactly one row per CA-sites authority, in
order, whose value is that same authority's CA value plus its own
bring value, each with NaN zero-filled; in particular an authority
missing from the bring sub-extraction still appears, with 0 for the
missing sub-source.  (Without the subset condition the index-aligned
sum can combine rows of two different authorities, see the
counterexample.) -/
theorem hwrcs_outer_join_amended (ca bring : List (α × Option ℚ))
    (hsort : List.Sorted (fun a b : α => a ≤ b) (ca.map Prod.fst))
    (hnodup : (ca.map Prod.fst).Nodup)
    (hbnodup : (bring.map Prod.fst).Nodup)
    (hsub : ∀ a ∈ bring.map Prod.fst, a ∈ ca.map Prod.fst) :
    get_hwrcs_rec_la_model ca bring =
      ca.map (fun r => (r.1, some (r.2.getD 0 +
        ((lookupName r.1 bring).getD none).getD 0))) := by
  set filterNames := (ca.map Prod.fst).filter
    (fun a => decide (a ∉ bring.map Prod.fst)) with hfn
  set added := filterNames.map (fun a => (a, (none : Option ℚ))) with hadded
  set bringExt := List.insertionSort rowLE (bring ++ added) with hbe
  have happkeys : (bring ++ added).map Prod.fst =
      bring.map Prod.fst ++ filterNames := by
    have hid : (Prod.fst ∘ fun a : α => (a, (none : Option ℚ))) =
        fun a => a := rfl
    rw [hadded, List.map_append, List.map_map, hid, List.map_id']
  have hfnodup : filterNames.Nodup := by
    rw [hfn]
    exact hnodup.filter _
  have hdisj : List.Disjoint (bring.map Prod.fst) filterNames := by
    intro a ha hf
    rw [hfn] at hf
    have h2 := (List.mem_filter.mp hf).2
    rw [decide_eq_true_eq] at h2
    exact h2 ha
  have happnodup : ((bring ++ added).map Prod.fst).Nodup := by
    rw [happkeys]
    exact hbnodup.append hfnodup hdisj
  have hpermExt : bringExt.Perm (bring ++ added) := by
    rw [hbe]
    exact List.perm_insertionSort rowLE _
  have hkeysperm : (bringExt.map Prod.fst).Perm (ca.map Prod.fst) := by
    refine (hpermExt.map Prod.fst).trans ?_
    rw [happkeys]
    refine (List.perm_ext_iff_of_nodup (happkeys ▸ happnodup) hnodup).mpr ?_
    intro a
    constructor
    · intro h
      rcases List.mem_append.mp h with h | h
      · exact hsub a h
      · rw [hfn] at h
        exact (List.mem_filter.mp h).1
    · intro h
      by_cases hb : a ∈ bring.map Prod.fst
      · exact List.mem_append.mpr (Or.inl hb)
      · refine List.mem_append.mpr (Or.inr ?_)
        rw [hfn]
        exact List.mem_filter.mpr ⟨h, by rw [decide_eq_true_eq]; exact hb⟩
  have hextsorted : List.Sorted rowLE bringExt := by
    rw [hbe]
    exact List.sorted_insertionSort rowLE _
  have hkeysorted : List.Sorted (fun a b : α => a ≤ b)
      (bringExt.map Prod.fst) :=
    List.Pairwise.map Prod.fst (fun _ _ h => h) hextsorted
  have hkeys : bringExt.map Prod.fst = ca.map Prod.fst :=
    List.eq_of_perm_of_sorted hkeysperm hkeysorted hsort
  have hextnodup : (bringExt.map Prod.fst).Nodup := by
    rw [hkeys]
    exact hnodup
  have hlook : ∀ a, lookupName a bringExt = lookupName a (bring ++ added) :=
    lookupName_perm hpermExt hextnodup
  have hkeyed : bringExt =
      ca.map (fun r => (r.1, (lookupName r.1 bring).getD none)) := by
    apply eq_of_keys_lookup
    · rw [hkeys, List.map_map]
      rfl
    · exact hextnodup
    · intro a
      rw [hlook a, lookupName_append, hadded,
        lookupName_mapConst a filterNames none,
        lookupName_map_keyed a ca (fun n => (lookupName n bring).getD none)]
      by_cases hb : a ∈ bring.map Prod.fst
      · obtain ⟨v, hv⟩ := lookupName_mem hb
        rw [hv, if_pos (hsub a hb)]
        rfl
      · rw [lookupName_eq_none hb]
        by_cases hc : a ∈ ca.map Prod.fst
        · have hmem : a ∈ filterNames := by
            rw [hfn]
            exact List.mem_filter.mpr ⟨hc, by rw [decide_eq_true_eq]; exact hb⟩
          rw [if_pos hmem, if_pos hc]
          rfl
        · have hmem : a ∉ filterNames := by
            rw [hfn]
            intro h
            exact hc (List.mem_filter.mp h).1
          rw [if_neg hmem, if_neg hc]
          rfl
  have hmodel : get_hwrcs_rec_la_model ca bring =
      positionalAdd (ca.map (fun r => (r.1, r.2.getD 0)))
        (bringExt.map (fun r => (r.1, r.2.getD 0))) := by
    rw [hbe, hadded, hfn]
    rfl
  rw [hmodel, hkeyed, positionalAdd_map_keyed]

/-- Claim C1, counterexample: in the household kerbside recycling
estimator, an authority with 'Steel cans' = 100 present AND
'Mixed cans' = 50 present does NOT receive
DRS Ferrous Cans = Steel cans x 0.1953; the 'Mixed cans' branch
overrides the finer 'Steel cans' data and yields 50 x 0.1453. -/
theorem hhkerb_fine_wins_counterexample :
    (get_hhkerb_rec_drs_row "WRAP" "Sum" "Yes"
      ⟨"Cardiff Council", some 1, none, none, some 100, none, some 50,
        none, none, 151⟩).drsFerrousCans ≠ some ((100 : ℚ) * 0.1953) ∧
    (get_hhkerb_rec_drs_row "WRAP" "Sum" "Yes"
      ⟨"Cardiff Council", some 1, none, none, some 100, none, some 50,
        none, none, 151⟩).drsFerrousCans = some ((50 : ℚ) * 0.1453) := by
  constructor
  · simp [get_hhkerb_rec_drs_row, omul, replaceNaN]
    norm_num
  · simp [get_hhkerb_rec_drs_row, omul, replaceNaN]

/-- Claim C1, amended: under the default WRAP configuration, presence of
the finest-grained column wins for DRS Glass Bottles ('Mixed glass'),
and DRS Ferrous Cans equals Steel cans x 0.1953 only when 'Mixed cans'
is absent or the authority is one of the two excluded ones; a present
'Mixed cans' otherwise overrides a present 'Steel cans', giving
Mixed cans x 0.1453. -/
theorem hhkerb_fallback_order_amended (r : HhkerbRecRow) :
    (∀ v, r.mixedGlass = some v →
      (get_hhkerb_rec_drs_row "WRAP" "Sum" "Yes" r).drsGlassBottles =
        some (v * 0.6564)) ∧
    (∀ v, r.steelCans = some v →
      (r.mixedCans = none ∨ r.authority = "Neath Port Talbot CBC" ∨
        r.authority = "Powys County Council") →
      (get_hhkerb_rec_drs_row "WRAP" "Sum" "Yes" r).drsFerrousCans =
        some (v * 0.1953)) ∧
    (∀ w, r.mixedCans = some w → r.authority ≠ "Neath Port Talbot CBC" →
      r.authority ≠ "Powys County Council" →
      (get_hhkerb_rec_drs_row "WRAP" "Sum" "Yes" r).drsFerrousCans =
        some (w * 0.1453)) := by
  refine ⟨?_, ?_, ?_⟩
  · intro v hv
    simp [get_hhkerb_rec_drs_row, hv, omul, replaceNaN]
  · intro v hv hcase
    have hcond : ¬(r.mixedCans.isSome ∧ r.authority ≠ "Neath Port Talbot CBC" ∧
        r.authority ≠ "Powys County Council") := by
      rcases hcase with h | h | h
      · intro hc
        rw [h] at hc
        exact absurd hc.1 (by simp)
      · intro hc
        exact hc.2.1 h
      · intro hc
        exact hc.2.2 h
    simp [get_hhkerb_rec_drs_row, hv, if_neg hcond, omul, replaceNaN]
  · intro w hw h1 h2
    simp [get_hhkerb_rec_drs_row, hw, h1, h2, omul, replaceNaN]

/-- Witness for the amended claim C1 at concrete rows: a non-excluded
authority with both cans columns present gets the Mixed cans value, an
excluded authority keeps the Steel cans value, and present Mixed glass
yields the fine-grained glass product. -/
theorem hhkerb_fallback_order_amended_witness :
    (get_hhkerb_rec_drs_row "WRAP" "Sum" "Yes"
      ⟨"Cardiff Council", some 2, none, none, some 3, none, some 5,
        none, none, 10⟩).drsGlassBottles = some ((2 : ℚ) * 0.6564) ∧
    (get_hhkerb_rec_drs_row "WRAP" "Sum" "Yes"
      ⟨"Cardiff Council", some 2, none, none, some 3, none, some 5,
        none, none, 10⟩).drsFerrousCans = some ((5 : ℚ) * 0.1453) ∧
    (get_hhkerb_rec_drs_row "WRAP" "Sum" "Yes"
      ⟨"Powys County Council", some 2, none, none, some 3, none, some 5,
        none, none, 10⟩).drsFerrousCans = some ((3 : ℚ) * 0.1953) :=
  ⟨(hhkerb_fallback_order_amended _).1 2 rfl,
   (hhkerb_fallback_order_amended _).2.2 5 rfl (by simp) (by simp),
   (hhkerb_fallback_order_amended _).2.1 3 rfl (Or.inr (Or.inr rfl))⟩

/-- Claim C2, counterexample: with 'Mixed glass' = 100 the household
kerbside recycling estimator returns 65.64 under WRAP and 80 under
Eunomia, never 66.0; and with 'Mixed glass' absent and sum_dry_rec =
500, the default configuration (comingled_reject = 'Yes') returns
71.275425, not 79.95, because the fallback also multiplies by the
0.8915 reject rate. -/
theorem hhkerb_glass_example_counterexample :
    ((get_hhkerb_rec_drs_row "WRAP" "Sum" "Yes"
      ⟨"X", some 100, none, none, none, none, none, none, none,
        100⟩).drsGlassBottles ≠ some 66 ∧
     (get_hhkerb_rec_drs_row "Eunomia" "Sum" "Yes"
      ⟨"X", some 100, none, none, none, none, none, none, none,
        100⟩).drsGlassBottles ≠ some 66) ∧
    (get_hhkerb_rec_drs_row "WRAP" "Sum" "Yes"
      ⟨"Y", none, none, none, none, none, none, none, none,
        500⟩).drsGlassBottles ≠ some 79.95 := by
  refine ⟨⟨?_, ?_⟩, ?_⟩ <;> (simp [get_hhkerb_rec_drs_row, omul, replaceNaN] <;> norm_num)

/-- Claim C2, amended: 'Mixed glass' = 100 yields DRS Glass Bottles =
65.64 (the WRAP fine ratio is 0.6564, not 0.66); 'Mixed glass' absent
with sum_dry_rec = 500 yields 500 x 0.8915 x 0.1599 = 71.275425 under
the default comingled_reject = 'Yes', and yields 500 x 0.1599 = 79.95
(dry-recycling total times the co-mingled ratio alone) only under
comingled_reject = 'No'. -/
theorem hhkerb_glass_example_amended :
    (get_hhkerb_rec_drs_row "WRAP" "Sum" "Yes"
      ⟨"X", some 100, none, none, none, none, none, none, none,
        100⟩).drsGlassBottles = some 65.64 ∧
    (get_hhkerb_rec_drs_row "WRAP" "Sum" "Yes"
      ⟨"Y", none, none, none, none, none, none, none, none,
        500⟩).drsGlassBottles = some 71.275425 ∧
    (get_hhkerb_rec_drs_row "WRAP" "Sum" "No"
      ⟨"Y", none, none, none, none, none, none, none, none,
        500⟩).drsGlassBottles = some 79.95 := by
  refine ⟨?_, ?_, ?_⟩ <;> (simp [get_hhkerb_rec_drs_row, omul, replaceNaN] <;> norm_num)

/-- Claim C3: the 'Percent Contribution' row divides each stream Total by
the fixed constant 1.402216, but that constant does NOT equal the
computed reference total divided by 100: the reference total returned by
`get_total_weight_drs_list` is above 150 thousand tonnes (ratio about
1.5098), because the function reassigns ave_pet_size to 0.5; the
constant matches (to within 1/100000) the total obtained when the
declared default 0.75 is respected, exposing the inconsistency as a
slip in the code. -/
theorem percent_divisor_mismatch :
    (∀ t : ℚ, percent_contribution t = t / 1.402216) ∧
    (get_total_weight_drs_list 0.75).getD 5 0 / 100 ≠ 1.402216 ∧
    (3 : ℚ) / 2 < (get_total_weight_drs_list 0.75).getD 5 0 / 100 ∧
    |(total_weight_param_respected 0.75).getD 5 0 / 100 - 1.402216| <
      1 / 100000 := by
  refine ⟨fun t => rfl, ?_, ?_, ?_⟩
  · norm_num [get_total_weight_drs_list]
  · norm_num [get_total_weight_drs_list]
  · rw [abs_sub_lt_iff]
    constructor <;> norm_num [total_weight_param_respected]

/-- Claim C4: the 'Remains in Environment (leftover)' value for a DRS
material equals the reference weight minus the sum of the seven stream
totals, and when the stream totals exceed the reference the value is
negative and surfaced as-is. -/
theorem remains_in_environment_spec (w hk hr wr ws cr cs lr : ℚ)
    (h : w < hk + hr + wr + ws + cr + cs + lr) :
    remains_in_environment w hk hr wr ws cr cs lr =
      w - (hk + hr + wr + ws + cr + cs + lr) ∧
    remains_in_environment w hk hr wr ws cr cs lr < 0 := by
  constructor
  · rw [remains_in_environment]
    ring
  · rw [remains_in_environment]
    linarith

/-- Witness for claim C4 at a concrete input: the glass reference weight
(about 95.29) against stream totals summing to 102 yields a negative
remainder. -/
theorem remains_in_environment_spec_witness :
    (get_total_weight_drs_list 0.75).getD 0 0 < 96 + 1 + 1 + 1 + 1 + 1 + 1 ∧
    remains_in_environment ((get_total_weight_drs_list 0.75).getD 0 0)
      96 1 1 1 1 1 1 < 0 :=
  ⟨by norm_num [get_total_weight_drs_list],
   (remains_in_environment_spec _ 96 1 1 1 1 1 1
     (by norm_num [get_total_weight_drs_list])).2⟩

/-- Claim C5, counterexample: in the HWRCs recycling cascade an explicit
zero is NOT retained: an authority with 'Mixed Plastic Bottles' = 0 and
'Plastics' = 10 receives DRS Plastic Bottles = 5, because this
estimator's fallback is triggered by the value 0. -/
theorem zero_retention_counterexample :
    (get_hwrcs_rec_drs_row "Sum"
      ⟨"X", 0, 0, 0, 0, 0, 10, 0, 0, 0, 0, 0, 10⟩).drsPlasticBottles = 5 ∧
    (5 : ℚ) ≠ 0 := by
  constructor
  · simp [get_hwrcs_rec_drs_row, replaceZero]
    norm_num
  · norm_num

/-- Claim C5, amended: the household kerbside recycling cascade retains
an explicit zero (0 times the ratio, no fallback) and substitutes a
missing value by direct replacement with the fallback product, while
the HWRCs recycling cascade instead triggers its fallback on the value
0, so the two policies coexist across stream estimators of the same
pipeline. -/
theorem zero_vs_nan_policy_amended (r1 r2 : HhkerbRecRow) (r3 : HwrcsRecRow)
    (h1 : r1.mixedGlass = some 0)
    (h2 : r2.mixedGlass = none)
    (h3 : r3.mixedPlasticBottles = 0)
    (h4 : r3.plastics * 0.5 ≠ 0) :
    (get_hhkerb_rec_drs_row "WRAP" "Sum" "Yes" r1).drsGlassBottles =
      some 0 ∧
    (get_hhkerb_rec_drs_row "WRAP" "Sum" "Yes" r2).drsGlassBottles =
      some (r2.sumDryRec * 0.8915 * 0.1599) ∧
    (get_hwrcs_rec_drs_row "Sum" r3).drsPlasticBottles =
      r3.plastics * 0.5 := by
  refine ⟨?_, ?_, ?_⟩
  · simp [get_hhkerb_rec_drs_row, h1, omul, replaceNaN]
  · simp [get_hhkerb_rec_drs_row, h2, omul, replaceNaN]
  · have h5 : r3.plastics ≠ 0 := fun hp => h4 (by rw [hp]; ring)
    simp [get_hwrcs_rec_drs_row, h3, replaceZero, h5]
    norm_num

/-- Witness for the amended claim C5 at concrete rows. -/
theorem zero_vs_nan_policy_amended_witness :
    (get_hhkerb_rec_drs_row "WRAP" "Sum" "Yes"
      ⟨"A", some 0, none, none, none, none, none, none, none,
        7⟩).drsGlassBottles = some 0 ∧
    (get_hhkerb_rec_drs_row "WRAP" "Sum" "Yes"
      ⟨"B", none, none, none, none, none, none, none, none,
        500⟩).drsGlassBottles = some ((500 : ℚ) * 0.8915 * 0.1599) ∧
    (get_hwrcs_rec_drs_row "Sum"
      ⟨"C", 0, 0, 0, 0, 0, 10, 0, 0, 0, 0, 0, 10⟩).drsPlasticBottles =
      (10 : ℚ) * 0.5 := by
  have h := zero_vs_nan_policy_amended
    ⟨"A", some 0, none, none, none, none, none, none, none, 7⟩
    ⟨"B", none, none, none, none, none, none, none, none, 500⟩
    ⟨"C", 0, 0, 0, 0, 0, 10, 0, 0, 0, 0, 0, 10⟩
    rfl rfl rfl (by norm_num)
  exact ⟨h.1, h.2.1, h.2.2⟩

/-- Claim C6, counterexample: with the CA-sites table holding only
authority 2 and the bring-sites table holding authorities 1 and 2, the
combined table pairs authority 1 with the SUM of authority 2's CA value
and authority 1's bring value (10 + 5 = 15), and leaves authority 2
with a missing value — the index-aligned addition combines rows of two
different authorities, unlike the per-authority union sum. -/
theorem hwrcs_outer_join_counterexample :
    get_hwrcs_rec_la_model [((2 : ℕ), some (10 : ℚ))]
        [(1, some 5), (2, some 7)] =
      [(1, some 15), (2, none)] ∧
    get_hwrcs_rec_la_model [((2 : ℕ), some (10 : ℚ))]
        [(1, some 5), (2, some 7)] ≠
      [(1, some 5), (2, some 17)] := by
  constructor
  · simp [get_hwrcs_rec_la_model, List.insertionSort, List.orderedInsert,
      rowLE, positionalAdd]
    norm_num
  · simp [get_hwrcs_rec_la_model, List.insertionSort, List.orderedInsert,
      rowLE, positionalAdd]

/-- Witness for the amended claim C6: authority 2 is present only in the
CA-sites table and still appears in the combined table with its CA
value plus zero, while authority 1, present in both, gets the sum of
its own two values. -/
theorem hwrcs_outer_join_amended_witness :
    get_hwrcs_rec_la_model [((1 : ℕ), some (3 : ℚ)), (2, some 10)]
        [(1, some 5)] =
      [(1, some 8), (2, some 10)] := by
  have h := hwrcs_outer_join_amended [((1 : ℕ), some (3 : ℚ)), (2, some 10)]
    [(1, some 5)] (by decide) (by decide) (by decide) (by decide)
  rw [h]
  simp [lookupName] <;> norm_num

/-- Claim C7: for every authority, the litter tonnage equals half the
street-cleaning tonnage minus the flytipping tonnage, litter DRS Glass
Bottles equals that litter tonnage times 0.0688, and the example
street-cleaning = 200 with flytipping = 30 yields Litter = 70 and
DRS Glass Bottles = 4.816. -/
theorem litter_formula_spec :
    (∀ s f : ℚ, get_lit_res_la_litter s f = s / 2 - f ∧
      (get_lit_res_drs_row (get_lit_res_la_litter s f)).drsGlassBottles =
        (s / 2 - f) * 0.0688) ∧
    get_lit_res_la_litter 200 30 = 70 ∧
    (get_lit_res_drs_row (get_lit_res_la_litter 200 30)).drsGlassBottles =
      4.816 := by
  refine ⟨fun s f => ⟨rfl, rfl⟩, by norm_num [get_lit_res_la_litter], ?_⟩
  norm_num [get_lit_res_la_litter, get_lit_res_drs_row]

/-- Claim C8: in the commercial recycling interpolation estimator, an
authority with no 'Mixed glass' tonnage receives the estimate
population x median of (tonnage / population) over the authorities with
data, and DRS Glass Bottles is 0.75 times that estimate. -/
theorem com_interpolation_spec (rows : List ComRecRow) (r : ComRecRow)
    (h : r.mixedGlass = none) :
    combinedMixedGlass rows r =
      r.population * medianRate rows (fun x => x.mixedGlass) ∧
    (get_com_rec_drs_int_row rows r).drsGlassBottles =
      r.population * medianRate rows (fun x => x.mixedGlass) * 0.75 := by
  have h1 : combinedMixedGlass rows r =
      r.population * medianRate rows (fun x => x.mixedGlass) := by
    rw [combinedMixedGlass, h]
    rfl
  refine ⟨h1, ?_⟩
  show combinedMixedGlass rows r * 0.75 = _
  rw [h1]

/-- Witness for claim C8: three authorities with population 1000 and
'Mixed glass' 1, 2, 3 give per-capita rates 0.001, 0.002, 0.003 with
median 0.002; the authority with no data and population 50000 receives
estimated 'Mixed glass' = 100 and DRS Glass Bottles = 75. -/
theorem com_interpolation_spec_witness :
    combinedMixedGlass
      [⟨"A", 1000, some 1, none, none, none⟩,
       ⟨"B", 1000, some 2, none, none, none⟩,
       ⟨"C", 1000, some 3, none, none, none⟩,
       ⟨"D", 50000, none, none, none, none⟩]
      ⟨"D", 50000, none, none, none, none⟩ = 100 ∧
    (get_com_rec_drs_int_row
      [⟨"A", 1000, some 1, none, none, none⟩,
       ⟨"B", 1000, some 2, none, none, none⟩,
       ⟨"C", 1000, some 3, none, none, none⟩,
       ⟨"D", 50000, none, none, none, none⟩]
      ⟨"D", 50000, none, none, none, none⟩).drsGlassBottles = 75 := by
  have h := com_interpolation_spec
    [⟨"A", 1000, some 1, none, none, none⟩,
     ⟨"B", 1000, some 2, none, none, none⟩,
     ⟨"C", 1000, some 3, none, none, none⟩,
     ⟨"D", 50000, none, none, none, none⟩]
    ⟨"D", 50000, none, none, none, none⟩ rfl
  constructor
  · rw [h.1]
    simp [medianRate, pdMedian, List.insertionSort, List.orderedInsert,
      List.filterMap] <;> norm_num
  · rw [h.2]
    simp [medianRate, pdMedian, List.insertionSort, List.orderedInsert,
      List.filterMap] <;> norm_num

/-- Claim C9: the ave_pet_size argument of `get_total_weight_drs_list`
has no effect on the returned reference-weight list, because the body
unconditionally reassigns it to 0.5 before its only use. -/
theorem ave_pet_size_dead_parameter :
    ∀ x y : ℚ, get_total_weight_drs_list x = get_total_weight_drs_list y :=
  fun _ _ => rfl

/-- Claim C10: whenever flytipping clearance exceeds half the
street-cleaning tonnage, the derived litter tonnage is negative, all
five litter DRS estimates are negative, and the negative glass estimate
propagates unclamped into the litter table and the baseline stream
sum. -/
theorem litter_negative_propagation (a : String) (s f : ℚ)
    (h : s / 2 < f) :
    get_lit_res_la_litter s f < 0 ∧
    (get_lit_res_drs_row (get_lit_res_la_litter s f)).drsGlassBottles < 0 ∧
    (get_lit_res_drs_row (get_lit_res_la_litter s f)).drsPlasticBottles < 0 ∧
    (get_lit_res_drs_row (get_lit_res_la_litter s f)).drsFerrousCans < 0 ∧
    (get_lit_res_drs_row (get_lit_res_la_litter s f)).drsAluminiumCans < 0 ∧
    (get_lit_res_drs_row (get_lit_res_la_litter s f)).drsBeverageCartons < 0 ∧
    baselineStreamSum ((get_lit_res_drs_table [(a, s, f)]).map
      (fun x => x.2.drsGlassBottles)) < 0 := by
  have hl : get_lit_res_la_litter s f < 0 := by
    rw [get_lit_res_la_litter]
    linarith
  have hg : get_lit_res_la_litter s f * (0.0688 : ℚ) < 0 :=
    mul_neg_of_neg_of_pos hl (by norm_num)
  refine ⟨hl,
    hg,
    mul_neg_of_neg_of_pos hl (by norm_num),
    mul_neg_of_neg_of_pos hl (by norm_num),
    mul_neg_of_neg_of_pos hl (by norm_num),
    mul_neg_of_neg_of_pos hl (by norm_num),
    ?_⟩
  have hsum : baselineStreamSum ((get_lit_res_drs_table [(a, s, f)]).map
      (fun x => x.2.drsGlassBottles)) =
      get_lit_res_la_litter s f * 0.0688 / 1000 := by
    simp [baselineStreamSum, get_lit_res_drs_table, get_lit_res_drs_row]
  rw [hsum]
  exact div_neg_of_neg_of_pos hg (by norm_num)

/-- Witness for claim C10 at street-cleaning = 200 and flytipping = 150:
litter is negative and the glass estimate is negative. -/
theorem litter_negative_propagation_witness :
    get_lit_res_la_litter 200 150 < 0 ∧
    (get_lit_res_drs_row (get_lit_res_la_litter 200 150)).drsGlassBottles <
      0 := by
  have h := litter_negative_propagation "X" 200 150 (by norm_num)
  exact ⟨h.1, h.2.1⟩
